import Mathlib

/-!
Verification development for the TMDbAPIs library (Kometa-Team/TMDbAPIs).

The definitions below are a shallow embedding of the core of the library:

* `tmdbParse` embeds `TMDbObj._parse` (tmdbapis/objs/base.py), the value
  coercion dispatcher, over a `JSON` model of the payloads the endpoints
  return.
* `EntityState`/`getattribute` embed the lazy/partial object protocol of
  `TMDbObj.__getattribute__` together with `TMDbReload._load`
  (tmdbapis/objs/base.py, tmdbapis/objs/reload.py).
* `PageState`/`load_page`/`load_next`/`get_results` embed the pagination
  controller `TMDbPagination` (tmdbapis/objs/pagination.py), and
  `SearchState`/`searchGetPage` embed its search-flavored subclasses
  (`SearchMovies` and friends), whose `_get_page` reads `self.page`.

Machine integers do not occur (Python ints are unbounded), so `Int`/`Nat`
are used directly.  Fallible Python code (exceptions) is modelled with
`Except`.
-/

namespace TMDb

/-- JSON values as delivered by the TMDb endpoints: the Python data handed to
`TMDbObj._parse` (tmdbapis/objs/base.py). Python floats are modelled as
rationals; no claim depends on float rounding. -/
inductive JSON where
  | null
  | bool (b : Bool)
  | int (n : Int)
  | float (q : Rat)
  | str (s : String)
  | arr (xs : List JSON)
  | obj (kvs : List (String × JSON))

/-- Python truthiness (`not value`) for JSON data: `None`, `False`, `0`,
`0.0`, `""`, `[]` and `{}` are falsy. -/
def pyFalsy : JSON → Bool
  | .null => true
  | .bool b => !b
  | .int n => n == 0
  | .float q => q == 0
  | .str s => s.data.isEmpty
  | .arr xs => xs.isEmpty
  | .obj kvs => kvs.isEmpty

/-- Python `str(value)` for JSON data.  The renderings of floats, lists and
dicts are approximate (their exact text differs from CPython), but no code
path in the library compares them against anything: the only use is the
boolean branch of `_parse`, which checks membership in
`["t","true"]`/`["f","false"]`, and none of these renderings lower-cases to
a member of those sets. -/
def pyStrOf : JSON → String
  | .null => "None"
  | .bool true => "True"
  | .bool false => "False"
  | .int n => toString n
  | .float q => toString q
  | .str s => s
  | .arr _ => "[list-repr]"
  | .obj _ => "[dict-repr]"

/-- Value of a list of decimal digits, most significant first. -/
def digitsVal (ds : List Nat) : Nat := ds.foldl (fun a d => 10 * a + d) 0

/-- Python `int(value)`: bools are 0/1, floats truncate toward zero, strings
parse as decimal integers, anything else raises. -/
def pyInt : JSON → Except String Int
  | .bool b => .ok (if b then 1 else 0)
  | .int n => .ok n
  | .float q => .ok (Int.tdiv q.num (q.den : Int))
  | .str s =>
    match s.toInt? with
    | some n => .ok n
    | none => .error "ValueError: invalid literal for int"
  | _ => .error "TypeError: int() argument"

/-- Decimal fraction parser backing `pyFloat` (only the plain
`digits[.digits]` forms; CPython accepts further forms such as exponents,
which the library never feeds it). -/
def parseDecimalCore (cs : List Char) : Option Rat :=
  let ip := cs.takeWhile (fun c => c.isDigit)
  let rest := cs.dropWhile (fun c => c.isDigit)
  if ip.isEmpty then none
  else
    let ipv : Nat := digitsVal (ip.map (fun c => c.toNat - 48))
    match rest with
    | [] => some (ipv : Rat)
    | '.' :: frac =>
      if frac.all (fun c => c.isDigit) then
        some ((ipv : Rat) + (digitsVal (frac.map (fun c => c.toNat - 48)) : Rat) / ((10 : Rat) ^ frac.length))
      else none
    | _ => none

/-- Python `float(value)`. -/
def pyFloat : JSON → Except String Rat
  | .bool b => .ok (if b then 1 else 0)
  | .int n => .ok (n : Rat)
  | .float q => .ok q
  | .str s =>
    match (match s.data with
           | '-' :: cs => (parseDecimalCore cs).map (fun q => -q)
           | cs => parseDecimalCore cs) with
    | some q => .ok q
    | none => .error "ValueError: could not convert string to float"
  | _ => .error "TypeError: float() argument"

/-- ASCII `str.lower()` (structural, so that concrete runs reduce in the
kernel; the tokens `_parse` compares against are ASCII). -/
def pyLower (s : String) : String := String.mk (s.data.map Char.toLower)

/-- Substring test on character lists (Python `needle in haystack` for
strings). -/
def isSubstrOf (p s : List Char) : Bool := s.tails.any (fun t => p.isPrefixOf t)

/-- Python `attr in value` as used by `_parse`: key membership for dicts,
element equality for lists (a string only equals a string), substring test
for strings; other types raise `TypeError`. -/
def pyContains (v : JSON) (attr : String) : Except String Bool :=
  match v with
  | .obj kvs => .ok (kvs.any (fun kv => kv.1 == attr))
  | .arr xs => .ok (xs.any (fun e => match e with | .str s => s == attr | _ => false))
  | .str s => .ok (isSubstrOf attr.data s.data)
  | _ => .error "TypeError: argument is not a container"

/-- Python `value[attr]` for a string key: dict lookup; any other receiver
raises `TypeError` (string indices / list indices must be integers). -/
def pyIndex (v : JSON) (attr : String) : Except String JSON :=
  match v with
  | .obj kvs =>
    match kvs.find? (fun kv => kv.1 == attr) with
    | some kv => .ok kv.2
    | none => .error "KeyError"
  | _ => .error "TypeError: indices must be integers"

/-- Python `for x in value`: lists yield elements, dicts yield their keys,
strings yield their characters; other types raise `TypeError`. -/
def jsonIter (v : JSON) : Except String (List JSON) :=
  match v with
  | .arr xs => .ok xs
  | .obj kvs => .ok (kvs.map (fun kv => JSON.str kv.1))
  | .str s => .ok (s.data.map (fun c => JSON.str (String.mk [c])))
  | _ => .error "TypeError: not iterable"

/-- Attribute-path walk of `_parse` (base.py lines 100-107): for each name in
`attrs`, test `attr in value` and descend, returning `none` (missing: the
caller yields its default) as soon as a name is not present. -/
def resolveAttrs (v : JSON) : List String → Except String (Option JSON)
  | [] => .ok (some v)
  | attr :: rest => do
    let c ← pyContains v attr
    if c then do
      let w ← pyIndex v attr
      resolveAttrs w rest
    else .ok none

/-- Naive `datetime` value produced by the embedded `strptime`. -/
structure PyDateTime where
  year : Nat
  month : Nat
  day : Nat
  hour : Nat
  minute : Nat
  second : Nat
deriving DecidableEq

def isLeapYear (y : Nat) : Bool := y % 4 == 0 && (y % 100 != 0 || y % 400 == 0)

def daysInMonth (y m : Nat) : Nat :=
  if m == 2 then (if isLeapYear y then 29 else 28)
  else if m == 4 || m == 6 || m == 9 || m == 11 then 30
  else 31

/-- Greedy parse of one or two decimal digits (CPython strptime compiles
`%m`, `%d`, `%H`, `%M`, `%S` to greedy one-or-two-digit regexes; the value
range checks happen separately below, with the same accept/reject outcomes
on every input). -/
def parseDigits2 (cs : List Char) : Option (Nat × List Char) :=
  match cs with
  | c1 :: c2 :: rest =>
    if c1.isDigit then
      if c2.isDigit then some (10 * (c1.toNat - 48) + (c2.toNat - 48), rest)
      else some (c1.toNat - 48, c2 :: rest)
    else none
  | [c1] => if c1.isDigit then some (c1.toNat - 48, []) else none
  | [] => none

/-- CPython strptime `%Y`: exactly four digits. -/
def parseYear4 (cs : List Char) : Option (Nat × List Char) :=
  match cs with
  | a :: b :: c :: d :: rest =>
    if a.isDigit && b.isDigit && c.isDigit && d.isDigit then
      some (digitsVal ([a, b, c, d].map (fun ch => ch.toNat - 48)), rest)
    else none
  | _ => none

def expectChar (c : Char) : List Char → Option (List Char)
  | x :: rest => if x == c then some rest else none
  | [] => none

/-- CPython `datetime.strptime(s, "%Y-%m-%d")` (base.py line 140), including
the calendar validation done by the `datetime` constructor. -/
def strptimeDate (cs : List Char) : Option PyDateTime := do
  let (y, cs) ← parseYear4 cs
  let cs ← expectChar '-' cs
  let (m, cs) ← parseDigits2 cs
  let cs ← expectChar '-' cs
  let (d, cs) ← parseDigits2 cs
  if cs.isEmpty ∧ 1 ≤ m ∧ m ≤ 12 ∧ 1 ≤ d ∧ d ≤ daysInMonth y m then
    some ⟨y, m, d, 0, 0, 0⟩
  else none

/-- CPython `datetime.strptime(s, "%Y-%m-%dT%H:%M:%S")` (base.py line 138). -/
def strptimeDT (cs : List Char) : Option PyDateTime := do
  let (y, cs) ← parseYear4 cs
  let cs ← expectChar '-' cs
  let (mo, cs) ← parseDigits2 cs
  let cs ← expectChar '-' cs
  let (d, cs) ← parseDigits2 cs
  let cs ← expectChar 'T' cs
  let (h, cs) ← parseDigits2 cs
  let cs ← expectChar ':' cs
  let (mi, cs) ← parseDigits2 cs
  let cs ← expectChar ':' cs
  let (s, cs) ← parseDigits2 cs
  if cs.isEmpty ∧ 1 ≤ mo ∧ mo ≤ 12 ∧ 1 ≤ d ∧ d ≤ daysInMonth y mo ∧ h ≤ 23 ∧ mi ≤ 59 ∧ s ≤ 59 then
    some ⟨y, mo, d, h, mi, s⟩
  else none

/-- Python values produced by `_parse`: primitives, datetimes, lists/dicts of
parsed values, raw JSON passthrough (the "dict" kind), and constructed
domain objects.  Domain-object construction (the ~35 constructor branches of
`_parse`) is abstracted as `objOf kind payload key`: no claim inspects the
constructed objects beyond their existence. -/
inductive PyValue where
  | none
  | bool (b : Bool)
  | int (n : Int)
  | float (q : Rat)
  | str (s : String)
  | date (dt : PyDateTime)
  | list (xs : List PyValue)
  | dict (kvs : List (String × PyValue))
  | json (j : JSON)
  | objOf (kind : String) (payload : JSON) (key : Option String)

/-- Default computation of `_parse` (base.py lines 92-97): `0` when the kind
is int/float (checked first), else `[]` when a list was requested, else
`None`; always `None` when `default_is_none` is set. -/
def parseDefault (default_is_none : Bool) (value_type : String) (is_list : Bool) : PyValue :=
  if default_is_none = false ∧ (value_type = "int" ∨ value_type = "float") then .int 0
  else if default_is_none = false ∧ is_list = true then .list []
  else .none

/-- Kind tags whose `_parse` branch constructs a domain object from the
payload (base.py lines 143-257), in source order. -/
def objectKinds : List String :=
  ["alternative_name", "alternative_title", "certification", "load_country",
   "country_certification", "country_watch_provider", "load_department",
   "load_genre", "group", "load_language", "release_date", "load_timezone",
   "trailer", "translation", "user", "video", "watch_provider", "backdrop",
   "logo", "poster", "profile", "still", "tagged", "collection", "company",
   "movie_cast", "movie_crew", "tv_cast", "tv_crew", "keyword", "movie",
   "network", "person", "review", "tv", "season", "episode", "episode_group",
   "list", "movie_reviews", "lists", "recommended_movies", "similar_movies",
   "recommended_tv", "similar_tv", "tagged_images",
   "country", "language", "movie_genre", "tv_genre"]

/-- Python `dict[k] = v` on an association list. -/
def setKey (kvs : List (String × JSON)) (k : String) (v : JSON) : List (String × JSON) :=
  if kvs.any (fun kv => kv.1 == k) then
    kvs.map (fun kv => if kv.1 == k then (k, v) else kv)
  else kvs ++ [(k, v)]

/-- The `new_dict = value.copy(); for k, v in role.items(): new_dict[k] = v`
merge of the aggregate-credit branches (base.py lines 201-216). -/
def mergeObj (base upd : List (String × JSON)) : List (String × JSON) :=
  upd.foldl (fun acc kv => setKey acc kv.1 kv.2) base

/-- Scalar dispatch of `TMDbObj._parse` (the value-kind if/elif chain of
base.py lines 109-263), as reached by the recursive calls
`self._parse(data=v, value_type=..., default_is_none=..., key=key)`.
Python conflates a `None` data argument with "use `self._data`", so a null
`v` falls back to `selfData` (base.py line 99); the top-level caller only
reaches this function with a non-null `v`, where the fallback is inert. -/
def parseValue (selfData : JSON) (v : JSON) (value_type : String)
    (default_is_none : Bool) (key : Option String) : Except String PyValue :=
  let default := parseDefault default_is_none value_type false
  let value := match v with | .null => selfData | _ => v
  match value with
  | .null => .ok default
  | _ =>
    if value_type = "int" then (pyInt value).map PyValue.int
    else if value_type = "float" then (pyFloat value).map PyValue.float
    else if value_type = "bool" then
      match value with
      | .bool b => .ok (.bool b)
      | _ =>
        if pyLower (pyStrOf value) ∈ (["t", "true"] : List String) then .ok (.bool true)
        else if pyLower (pyStrOf value) ∈ (["f", "false"] : List String) then .ok (.bool false)
        else .ok default
    else if value_type = "date" then
      if pyFalsy value then .ok .none
      else
        match value with
        | .str s =>
          if s.data.contains 'T' then
            match strptimeDT (s.data.dropLast.takeWhile (fun c => c ≠ '.')) with
            | some dt => .ok (.date dt)
            | Option.none => .error "ValueError: time data does not match format"
          else
            match strptimeDate s.data with
            | some dt => .ok (.date dt)
            | Option.none => .error "ValueError: time data does not match format"
        | _ => .error "TypeError: strptime argument must be str"
    else if value_type = "dict" then .ok (.json value)
    else if value_type = "media_type" then
      match pyIndex value "media_type" with
      | .error e => .error e
      | .ok (.str mt) =>
        if mt = "movie" ∨ mt = "tv" ∨ mt = "person" then .ok (.objOf mt value key)
        else .ok .none
      | .ok _ => .ok .none
    else if value_type = "agg_tv_cast" ∨ value_type = "agg_tv_crew" then
      match value with
      | .obj baseKvs => do
        let roles ← pyIndex value (if value_type = "agg_tv_cast" then "roles" else "jobs")
        let roleList ← jsonIter roles
        let creds ← roleList.mapM (fun role =>
          match role with
          | .obj rkvs =>
            Except.ok (PyValue.objOf
              (if value_type = "agg_tv_cast" then "tv_cast" else "tv_crew")
              (JSON.obj (mergeObj baseKvs rkvs)) key)
          | _ => Except.error "AttributeError: role has no items")
        .ok (.list creds)
      | _ => .error "AttributeError: value has no copy"
    else if value_type = "content_rating" then do
      let items ← jsonIter value
      let kvs ← items.mapM (fun it => do
        let k ← pyIndex it "iso_3166_1"
        let r ← pyIndex it "rating"
        match k with
        | .str ks => Except.ok (ks, PyValue.json r)
        | _ => Except.error "TypeError: non-string country code key")
      .ok (.dict kvs)
    else if value_type ∈ objectKinds then .ok (.objOf value_type value key)
    else .ok (.str (pyStrOf value))

/-- Iteration performed by `export_list.extend(x)` over one recursive
result, for the `extend` branch. -/
def pyExtendParts : PyValue → Except String (List PyValue)
  | .list xs => .ok xs
  | .str s => .ok (s.data.map (fun c => PyValue.str (String.mk [c])))
  | .dict kvs => .ok (kvs.map (fun kv => PyValue.str kv.1))
  | _ => .error "TypeError: extend argument not iterable"

/-- Python `self._data if data is None else data` (base.py line 99). -/
def dataOrSelf (selfData : JSON) (data : Option JSON) : JSON :=
  match data with
  | Option.none => selfData
  | some d => d

/-- `TMDbObj._parse` (tmdbapis/objs/base.py lines 74-263).  `selfData` is
`self._data`; `data = none` means the Python default `data=None` ("use
`self._data`"); `attrs` is the (normalised) attribute path. -/
def tmdbParse (selfData : JSON) (data : Option JSON) (attrs : List String)
    (value_type : String) (default_is_none : Bool)
    (is_list : Bool) (is_dict : Bool) (extend : Bool) (key : Option String) :
    Except String PyValue :=
  let default := parseDefault default_is_none value_type is_list
  let value0 := dataOrSelf selfData data
  match resolveAttrs value0 attrs with
  | .error e => .error e
  | .ok Option.none => .ok default
  | .ok (some value) =>
    match value with
    | .null => .ok default
    | _ =>
      if extend then do
        let elems ← jsonIter value
        let parts ← elems.mapM (fun v => parseValue selfData v value_type default_is_none key)
        let flat ← parts.mapM pyExtendParts
        .ok (.list flat.flatten)
      else if is_list then do
        let elems ← jsonIter value
        let xs ← elems.mapM (fun v => parseValue selfData v value_type default_is_none key)
        .ok (.list xs)
      else if is_dict then
        match value with
        | .obj kvs => do
          let out ← kvs.mapM (fun kv => do
            let pv ← parseValue selfData kv.2 value_type default_is_none (some kv.1)
            Except.ok (kv.1, pv))
          .ok (.dict out)
        | _ => .error "AttributeError: value has no items"
      else parseValue selfData value value_type default_is_none key

/-! ## Pagination controller (tmdbapis/objs/pagination.py) -/

/-- Page envelope returned by the paginated endpoints, as consumed by
`TMDbPagination._load`: the `page`, `total_pages`, `total_results` and
(already coerced) `results` fields of the payload.  The generic controllers
modelled here are the ones with `_single_load = False` and no
`_results_text`/`_total_results_text` override (pagination.py lines 20-46),
e.g. `DiscoverMovies`; `_parse(attrs=..., value_type="int")` on the envelope
is modelled as field access. -/
structure PagePayload (α : Type) where
  page : Int
  total_pages : Int
  total_results : Int
  results : List α

/-- Errors raised by the pagination controller: `Invalid` and `NotFound` from
tmdbapis/exceptions.py, `AttributeError` for a read of a never-assigned
attribute, and a fuel marker for the embedded `while` loop of
`get_results` (unreachable for consistent page sources, see below). -/
inductive PagErr where
  | invalid
  | notFound
  | attrError
  | fuel
deriving DecidableEq

/-- Lookup in `self._page_storage` (a Python dict keyed by page number). -/
def lookupStore {α : Type} : List (Int × List α) → Int → Option (List α)
  | [], _ => Option.none
  | e :: st, n => if e.1 == n then some e.2 else lookupStore st n

/-- Store into `self._page_storage`. -/
def insertStore {α : Type} (st : List (Int × List α)) (n : Int) (rs : List α) :
    List (Int × List α) :=
  if st.any (fun e => e.1 == n) then st.map (fun e => if e.1 == n then (n, rs) else e)
  else st ++ [(n, rs)]

/-- State of a generic `TMDbPagination` object.  `partFlag` is `self._partial`
(the name `_partial` itself cannot be used here); `self._loading` is only
ever true inside a single operation, so it is not part of the resting
state. -/
structure PageState (α : Type) where
  page : Int
  total_pages : Int
  total_results : Int
  results : List α
  storage : List (Int × List α)
  partFlag : Bool

/-- `TMDbPagination._load` (pagination.py lines 30-46) for a generic
controller whose `_get_page(page)` forwards its argument to the endpoint
(modelled by `fetch`).  Returns the new state together with the list of page
numbers fetched from the network during the call. -/
def pagLoad {α : Type} (fetch : Int → PagePayload α) (storage0 : List (Int × List α))
    (data : Option (PagePayload α)) : PageState α × List Int :=
  let p := match data with | Option.none => fetch 1 | some d => d
  let fetched : List Int := match data with | Option.none => [1] | some _ => []
  ({ page := p.page
     total_pages := p.total_pages
     total_results := p.total_results
     results := p.results
     storage := insertStore storage0 p.page p.results
     partFlag := data.isSome }, fetched)

/-- Construction of a generic pagination controller with `data = None`
(`_page_storage` starts empty, then `_load(None)` runs). -/
def pagInit {α : Type} (fetch : Int → PagePayload α) : PageState α × List Int :=
  pagLoad fetch [] Option.none

/-- `TMDbPagination.load_page` (pagination.py lines 61-79). -/
def load_page {α : Type} (fetch : Int → PagePayload α) (s : PageState α) (n : Int) :
    Except PagErr (PageState α × List Int) :=
  if n < 1 ∨ n > s.total_pages then .error .invalid
  else
    match lookupStore s.storage n with
    | some rs => .ok ({ s with results := rs, page := n }, [])
    | Option.none =>
      -- uncached: `self._load(self._get_page(page))`; the `_get_page(page)`
      -- call itself is the one network fetch of this operation
      .ok ((pagLoad fetch s.storage (some (fetch n))).1, [n])

/-- `TMDbPagination.load_next` (pagination.py lines 48-59). -/
def load_next {α : Type} (fetch : Int → PagePayload α) (s : PageState α) :
    Except PagErr (PageState α × List Int) :=
  if s.page + 1 > s.total_pages then .error .notFound
  else load_page fetch s (s.page + 1)

/-- Body of the `while len(results) < amount and current_page < self.total_pages`
loop of `get_results` (pagination.py lines 104-113).  `fuel` only bounds the
number of iterations so that the recursion is structural; the theorems below
show it is never exhausted when the page source reports stable totals.
Returns the accumulated results, the final controller state, the pages
visited via `load_page`, and the pages fetched from the network. -/
def grLoop {α : Type} (fetch : Int → PagePayload α) (amount : Int) (fuel : Nat)
    (acc : List α) (current_page : Int) (s : PageState α)
    (visited flog : List Int) :
    Except PagErr (List α × PageState α × List Int × List Int) :=
  if (acc.length : Int) < amount ∧ current_page < s.total_pages then
    match fuel with
    | 0 => .error .fuel
    | fuel' + 1 =>
      let cp := current_page + 1
      match load_page fetch s cp with
      | .error e => .error e
      | .ok (s', f) =>
        let acc' :=
          if (acc.length : Int) + (s'.results.length : Int) < amount then acc ++ s'.results
          else acc ++ s'.results.take (amount - (acc.length : Int)).toNat
        grLoop fetch amount fuel' acc' cp s' (visited ++ [cp]) (flog ++ f)
  else .ok (acc, s, visited, flog)

/-- `TMDbPagination.get_results` (pagination.py lines 91-113): clamp `amount`
to `total_results`, reject amounts below 1, then accumulate pages from 1
upward. -/
def get_results {α : Type} (fetch : Int → PagePayload α) (s : PageState α) (amount : Int) :
    Except PagErr (List α × PageState α × List Int × List Int) :=
  let amt := if amount > s.total_results then s.total_results else amount
  if amt < 1 then .error .invalid
  else grLoop fetch amt (s.total_pages.toNat + 1) [] 0 s [] []

/-! ## Search-flavored controllers (pagination.py lines 408-584) -/

/-- State of a search-flavored controller (`SearchMovies` and the other six
`Search*` classes).  Unlike the generic model, `page` is an `Option`: the
attribute does not exist on the instance until the first `_load` completes,
and `Search*._get_page` reads `self.page`. -/
structure SearchState (α : Type) where
  page : Option Int
  total_pages : Int
  total_results : Int
  results : List α
  storage : List (Int × List α)
  partFlag : Bool

/-- `Search*._get_page(page)` (e.g. `SearchMovies._get_page`, pagination.py
lines 485-497): issues the endpoint call with `page=self.page` — the `page`
ARGUMENT is ignored — then raises `NotFound` unless `total_results > 0`.
Reading `self.page` when the attribute was never assigned raises
`AttributeError`.  Returns the payload and the page number actually sent. -/
def searchGetPage {α : Type} (fetchQ : Int → PagePayload α) (pageAttr : Option Int)
    (_pageArg : Int) : Except PagErr (PagePayload α × Int) :=
  match pageAttr with
  | Option.none => .error .attrError
  | some p =>
    let results := fetchQ p
    if results.total_results > 0 then .ok (results, p) else .error .notFound

/-- Construction of a search controller: `TMDbPagination._load(None)`
evaluates `self._get_page(1)` while `self.page` is still unassigned.
Returns the constructed state and the pages sent to the endpoint. -/
def searchInit {α : Type} (fetchQ : Int → PagePayload α) :
    Except PagErr (SearchState α × List Int) := do
  let (p, sent) ← searchGetPage fetchQ Option.none 1
  .ok ({ page := some p.page
         total_pages := p.total_pages
         total_results := p.total_results
         results := p.results
         storage := insertStore [] p.page p.results
         partFlag := false }, [sent])

/-- `load_page` on a search-flavored controller: the inherited
`TMDbPagination.load_page` combined with `Search*._get_page` (which sends
`self.page` rather than the requested page). -/
def searchLoadPage {α : Type} (fetchQ : Int → PagePayload α) (s : SearchState α)
    (n : Int) : Except PagErr (SearchState α × List Int) :=
  if n < 1 ∨ n > s.total_pages then .error .invalid
  else
    match lookupStore s.storage n with
    | some rs => .ok ({ s with results := rs, page := some n }, [])
    | Option.none => do
      let (p, sent) ← searchGetPage fetchQ s.page n
      .ok ({ page := some p.page
             total_pages := p.total_pages
             total_results := p.total_results
             results := p.results
             storage := insertStore s.storage p.page p.results
             partFlag := true }, [sent])

/-! ## Lazy / partial object protocol (base.py lines 58-72, reload.py lines 8-26) -/

/-- Arguments of one `self._parse(...)` call in a subclass `_load` routine:
each domain object is a declarative list of `(fieldName, FieldSpec)`
coercions. -/
structure FieldSpec where
  attrs : List String
  value_type : String
  default_is_none : Bool
  is_list : Bool
  is_dict : Bool
  extend : Bool
  key : Option String

/-- Resting state of a `TMDbReload` entity.  `partFlag` models
`self._partial`, `loading` models `self._loading`, `rawData` models
`self._data`, and `attrs` holds the non-underscore attributes assigned by the
field-population pass (underscore internals are the record's own fields). -/
structure EntityState where
  loading : Bool
  partFlag : Bool
  rawData : Option JSON
  attrs : List (String × PyValue)

/-- Python `item.startswith("_")`. -/
def startsUnderscore (s : String) : Bool :=
  match s.data with
  | c :: _ => c == '_'
  | [] => false

def lookupAttr (l : List (String × PyValue)) (k : String) : Option PyValue :=
  match l.find? (fun kv => kv.1 == k) with
  | some kv => some kv.2
  | Option.none => Option.none

def updateAttr (l : List (String × PyValue)) (k : String) (v : PyValue) :
    List (String × PyValue) :=
  if l.any (fun kv => kv.1 == k) then l.map (fun kv => if kv.1 == k then (k, v) else kv)
  else l ++ [(k, v)]

def isPyNone : PyValue → Bool
  | .none => true
  | _ => false

/-- Field-population pass of a subclass `_load` routine: every schema field
is assigned via `_parse` on the payload, in order. -/
def populateFields (payload : JSON) (schema : List (String × FieldSpec)) :
    Except String (List (String × PyValue)) :=
  schema.mapM (fun nf => do
    let v ← tmdbParse payload Option.none nf.2.attrs nf.2.value_type nf.2.default_is_none
      nf.2.is_list nf.2.is_dict nf.2.extend nf.2.key
    Except.ok (nf.1, v))

/-- `TMDbReload._load` (reload.py lines 15-18) followed by the subclass
field-population pass and `_finish`: `self._partial = data is not None`; the
payload is `self._full_load()` (one network fetch, counted) when `data` is
`None`, else `data`.  Returns the settled state and the number of fetches
issued. -/
def entityLoad (fullLoad : JSON) (schema : List (String × FieldSpec))
    (data : Option JSON) : Except String (EntityState × Nat) :=
  let payload := dataOrSelf fullLoad data
  let fetches : Nat := match data with | Option.none => 1 | some _ => 0
  match populateFields payload schema with
  | .error e => .error e
  | .ok fields =>
    .ok ({ loading := false, partFlag := data.isSome, rawData := some payload,
           attrs := fields }, fetches)

/-- `TMDbObj.__getattribute__` (base.py lines 58-63): return the stored value
unless the item is internal, the object is loading, the object is not
partial, or the value is not `None`; otherwise run `self._load(None)` (full
fetch and re-population) and read again.  Returns the value, the resulting
state, and the number of network fetches issued. -/
def getattribute (fullLoad : JSON) (schema : List (String × FieldSpec))
    (s : EntityState) (item : String) : Except String (PyValue × EntityState × Nat) :=
  match lookupAttr s.attrs item with
  | Option.none => .error "AttributeError"
  | some value =>
    if startsUnderscore item || s.loading || !s.partFlag || !(isPyNone value) then
      .ok (value, s, 0)
    else
      match entityLoad fullLoad schema Option.none with
      | .error e => .error e
      | .ok (s', n) =>
        match lookupAttr s'.attrs item with
        | Option.none => .error "AttributeError"
        | some v2 => .ok (v2, s', n)

/-- `TMDbObj.__setattr__` (base.py lines 65-69): internal names and writes
during loading go through; everything else raises. -/
def setattrE (s : EntityState) (key : String) (v : PyValue) : Except String EntityState :=
  if startsUnderscore key || s.loading then
    .ok { s with attrs := updateAttr s.attrs key v }
  else .error "AttributeError: Attributes cannot be edited"

/-- `TMDbObj.__delattr__` (base.py lines 71-72): always raises. -/
def delattrE (_s : EntityState) (_key : String) : Except String EntityState :=
  .error "AttributeError: Attributes cannot be deleted"

/-- Sequential external reads of a list of attributes, accumulating the total
number of network fetches; a raised exception aborts the remaining reads. -/
def readSeq (fullLoad : JSON) (schema : List (String × FieldSpec))
    (s : EntityState) : List String → EntityState × Nat
  | [] => (s, 0)
  | item :: rest =>
    match getattribute fullLoad schema s item with
    | .ok (_, s', n) =>
      let r := readSeq fullLoad schema s' rest
      (r.1, n + r.2)
    | .error _ => (s, 0)

/-! ## Claim C2: the coercion default law -/

/-- Helper: when the attribute path does not resolve, `_parse` returns the
computed default. -/
theorem tmdbParse_missing_default (selfData : JSON) (data : Option JSON)
    (attrs : List String) (value_type : String) (din is_list is_dict extend : Bool)
    (key : Option String)
    (hmiss : resolveAttrs (dataOrSelf selfData data) attrs = .ok Option.none) :
    tmdbParse selfData data attrs value_type din is_list is_dict extend key
      = .ok (parseDefault din value_type is_list) := by
  unfold tmdbParse
  simp only [hmiss]

/-- Claim C2 counterexample: for the int kind with a list requested
(`value_type="int"`, `is_list=True`) and a missing path, `_parse` returns
the integer `0`, not the empty list the claim assigns to list kinds (the
int/float default takes precedence in base.py lines 92-95). -/
theorem C2_counterexample :
    tmdbParse (.obj []) Option.none ["x"] "int" false true false false Option.none
      = .ok (.int 0)
    ∧ PyValue.int 0 ≠ PyValue.list [] :=
  ⟨rfl, fun h => PyValue.noConfusion h⟩

/-- Claim C2, amended: for every value-kind and payload in which the target
attribute path does not resolve, `_parse` returns `0` for the int and float
kinds (even when a list is requested), the empty list for list requests of
all other kinds, and `None` for every other kind; whenever `default_is_none`
is requested the default is `None` regardless of kind. -/
theorem C2_amended_default_law (selfData : JSON) (data : Option JSON)
    (attrs : List String) (value_type : String) (din is_list is_dict extend : Bool)
    (key : Option String)
    (hmiss : resolveAttrs (dataOrSelf selfData data) attrs = .ok Option.none) :
    tmdbParse selfData data attrs value_type din is_list is_dict extend key
      = .ok (parseDefault din value_type is_list)
    ∧ (din = true → parseDefault din value_type is_list = .none)
    ∧ (din = false → (value_type = "int" ∨ value_type = "float") →
        parseDefault din value_type is_list = .int 0)
    ∧ (din = false → ¬(value_type = "int" ∨ value_type = "float") → is_list = true →
        parseDefault din value_type is_list = .list [])
    ∧ (din = false → ¬(value_type = "int" ∨ value_type = "float") → is_list = false →
        parseDefault din value_type is_list = .none) := by
  refine ⟨tmdbParse_missing_default _ _ _ _ _ _ _ _ _ hmiss, ?_, ?_, ?_, ?_⟩
  · intro h; subst h; simp [parseDefault]
  · intro h hv; subst h; simp [parseDefault, hv]
  · intro h hv hl; subst h; subst hl; simp [parseDefault, hv]
  · intro h hv hl; subst h; subst hl; simp [parseDefault, hv]

/-- Witness for `C2_amended_default_law` at a concrete missing-path input. -/
theorem C2_witness :
    resolveAttrs (dataOrSelf (.obj [("id", .int 5)]) Option.none) ["title"]
      = .ok Option.none
    ∧ tmdbParse (.obj [("id", .int 5)]) Option.none ["title"] "str" false false false false
        Option.none = .ok (parseDefault false "str" false) := by
  have h : resolveAttrs (dataOrSelf (.obj [("id", .int 5)]) Option.none) ["title"]
      = .ok Option.none := rfl
  exact ⟨h, (C2_amended_default_law (.obj [("id", .int 5)]) Option.none ["title"] "str"
    false false false false Option.none h).1⟩

/-! ## Claim C3: boolean coercion -/

/-- Claim C3 counterexample: the string "1", which the claim lists as a true
token, is not accepted by the code (base.py lines 125-133 accept only
`t`/`true`/`f`/`false` case-insensitively); `_parse` returns the bool kind's
default `None` instead of `True`. -/
theorem C3_counterexample :
    tmdbParse (.obj [("x", .str "1")]) Option.none ["x"] "bool" false false false false
      Option.none = .ok .none
    ∧ PyValue.none ≠ PyValue.bool true :=
  ⟨rfl, fun h => PyValue.noConfusion h⟩

/-- Claim C3, amended: boolean coercion returns native booleans unchanged,
`True` for strings whose lower-casing is `t` or `true`, `False` for strings
whose lower-casing is `f` or `false`, and the kind's default (`None`) for
every other string. -/
theorem C3_amended_bool_coercion (selfData : JSON) (din : Bool) (key : Option String) :
    (∀ b : Bool, tmdbParse selfData (some (.bool b)) [] "bool" din false false false key
      = .ok (.bool b))
    ∧ (∀ s : String, pyLower s ∈ (["t", "true"] : List String) →
        tmdbParse selfData (some (.str s)) [] "bool" din false false false key
          = .ok (.bool true))
    ∧ (∀ s : String, pyLower s ∈ (["f", "false"] : List String) →
        tmdbParse selfData (some (.str s)) [] "bool" din false false false key
          = .ok (.bool false))
    ∧ (∀ s : String, pyLower s ∉ (["t", "true"] : List String) →
        pyLower s ∉ (["f", "false"] : List String) →
        tmdbParse selfData (some (.str s)) [] "bool" din false false false key
          = .ok .none) := by
  have hred : ∀ s : String,
      tmdbParse selfData (some (.str s)) [] "bool" din false false false key
        = (if pyLower s ∈ (["t", "true"] : List String) then .ok (.bool true)
           else if pyLower s ∈ (["f", "false"] : List String) then .ok (.bool false)
           else .ok (parseDefault din "bool" false)) := fun s => rfl
  have hdef : parseDefault din "bool" false = PyValue.none := by cases din <;> rfl
  refine ⟨?_, ?_, ?_, ?_⟩
  · intro b; cases b <;> rfl
  · intro s hs
    rw [hred s, if_pos hs]
  · intro s hf
    have hnt : pyLower s ∉ (["t", "true"] : List String) := by
      rcases (by simpa using hf : pyLower s = "f" ∨ pyLower s = "false") with h | h <;>
        simp [h]
    rw [hred s, if_neg hnt, if_pos hf]
  · intro s ht hf
    rw [hred s, if_neg ht, if_neg hf, hdef]

/-- Witness for `C3_amended_bool_coercion` at concrete inputs. -/
theorem C3_witness :
    pyLower "TRUE" ∈ (["t", "true"] : List String)
    ∧ tmdbParse (.obj []) (some (.str "TRUE")) [] "bool" false false false false Option.none
        = .ok (.bool true) := by
  have h : pyLower "TRUE" ∈ (["t", "true"] : List String) := by decide
  exact ⟨h, (C3_amended_bool_coercion (.obj []) false Option.none).2.1 "TRUE" h⟩

/-! ## Claim C8: settled immutability -/

/-- Claim C8: on a settled entity (loading finished), assigning any
non-internal (non-underscore) attribute raises the mutation-forbidden error
and deleting any attribute raises the deletion-forbidden error, whether or
not the entity is partial (`partFlag` is unconstrained); the raise happens
before any state change, so the fields are untouched. -/
theorem C8_settled_immutability (s : EntityState) (key : String) (v : PyValue)
    (hsettled : s.loading = false) (hext : startsUnderscore key = false) :
    setattrE s key v = .error "AttributeError: Attributes cannot be edited"
    ∧ delattrE s key = .error "AttributeError: Attributes cannot be deleted" := by
  constructor
  · unfold setattrE
    rw [hext, hsettled]
    rfl
  · rfl

/-- Witness for `C8_settled_immutability` on a concrete settled partial
entity. -/
theorem C8_witness :
    (⟨false, true, Option.none, [("title", PyValue.none)]⟩ : EntityState).loading = false
    ∧ startsUnderscore "title" = false
    ∧ setattrE ⟨false, true, Option.none, [("title", PyValue.none)]⟩ "title" (.str "x")
        = .error "AttributeError: Attributes cannot be edited"
    ∧ delattrE ⟨false, true, Option.none, [("title", PyValue.none)]⟩ "title"
        = .error "AttributeError: Attributes cannot be deleted" := by
  have h := C8_settled_immutability ⟨false, true, Option.none, [("title", PyValue.none)]⟩
    "title" (.str "x") rfl rfl
  exact ⟨rfl, rfl, h.1, h.2⟩

/-! ## Claim C6: search construction with zero results -/

/-- Claim C6 (code bug): constructing any search-flavored controller
evaluates `_get_page(1)`, which reads `self.page` while that attribute is
still unassigned, so construction raises `AttributeError` for every query —
it never reaches the `total_results > 0` check, hence never raises the
`NotFound` that the claim (and the repository's own `test_search`) expects
for a zero-result query. -/
theorem C6_search_construction_attribute_error {α : Type}
    (fetchQ : Int → PagePayload α) :
    searchInit fetchQ = .error .attrError
    ∧ (Except.error PagErr.attrError
        ≠ (.error .notFound : Except PagErr (SearchState α × List Int))) := by
  constructor
  · rfl
  · intro h
    injection h with h2
    exact PagErr.noConfusion h2

/-! ## Claim C10: search _get_page sends the current page -/

/-- Claim C10: on a search-flavored controller whose `page` attribute is set
to `p`, an uncached in-range `load_page(n)` sends `p` — the page the
controller is already on — to the endpoint, not `n`, and the reloaded state
carries the payload of page `p` (so the controller stays on page `p`
whenever the endpoint echoes the requested page back). -/
theorem C10_search_sends_current_page {α : Type} (fetchQ : Int → PagePayload α)
    (s : SearchState α) (p n : Int)
    (hp : s.page = some p)
    (hlow : 1 ≤ n) (hhigh : n ≤ s.total_pages)
    (hmiss : lookupStore s.storage n = Option.none)
    (hpos : (fetchQ p).total_results > 0) :
    searchLoadPage fetchQ s n
      = .ok ({ page := some (fetchQ p).page
               total_pages := (fetchQ p).total_pages
               total_results := (fetchQ p).total_results
               results := (fetchQ p).results
               storage := insertStore s.storage (fetchQ p).page (fetchQ p).results
               partFlag := true }, [p])
    ∧ (p ≠ n → ([p] : List Int) ≠ ([n] : List Int)) := by
  constructor
  · unfold searchLoadPage searchGetPage
    simp only [hp, hmiss]
    rw [if_neg (by omega : ¬(n < 1 ∨ n > s.total_pages)), if_pos hpos]
    rfl
  · intro hpn h
    exact hpn (by simpa using h)

/-- Witness for `C10_search_sends_current_page`: a controller sitting on page
1 asked for uncached page 2 sends page 1 to the endpoint. -/
theorem C10_witness :
    (⟨some 1, 5, 47, [1], [(1, [1])], false⟩ : SearchState Int).page = some 1
    ∧ lookupStore (⟨some 1, 5, 47, [1], [(1, [1])], false⟩ : SearchState Int).storage 2
        = Option.none
    ∧ ((fun k => ⟨k, 5, 47, [k]⟩ : Int → PagePayload Int) 1).total_results > 0
    ∧ searchLoadPage (fun k => ⟨k, 5, 47, [k]⟩)
        (⟨some 1, 5, 47, [1], [(1, [1])], false⟩ : SearchState Int) 2
      = .ok ({ page := some 1, total_pages := 5, total_results := 47, results := [1],
               storage := insertStore [(1, [1])] 1 [1], partFlag := true }, [1]) := by
  have h := (C10_search_sends_current_page (fun k => ⟨k, 5, 47, [k]⟩)
    (⟨some 1, 5, 47, [1], [(1, [1])], false⟩ : SearchState Int) 1 2 rfl (by decide)
    (by decide) rfl (by decide)).1
  exact ⟨rfl, rfl, by decide, h⟩

/-! ## Claim C4: pagination range law -/

/-- Claim C4: on a controller with `total_pages = P >= 1` and a current page
in range, `load_page(n)` raises `Invalid` exactly when `n < 1` or `n > P`
and succeeds for every `1 <= n <= P`; `load_next()` raises the distinct
`NotFound` error exactly when the current page equals `P`, and otherwise is
literally `load_page(page + 1)`. -/
theorem C4_pagination_range_law {α : Type} (fetch : Int → PagePayload α)
    (s : PageState α) (hpg : 1 ≤ s.page) (hpl : s.page ≤ s.total_pages) :
    (∀ n : Int, (n < 1 ∨ n > s.total_pages) → load_page fetch s n = .error .invalid)
    ∧ (∀ n : Int, 1 ≤ n → n ≤ s.total_pages → ∃ out, load_page fetch s n = .ok out)
    ∧ (load_next fetch s = .error .notFound ↔ s.page = s.total_pages)
    ∧ (s.page < s.total_pages → load_next fetch s = load_page fetch s (s.page + 1)) := by
  have hok : ∀ n : Int, 1 ≤ n → n ≤ s.total_pages →
      ∃ out, load_page fetch s n = .ok out := by
    intro n h1 h2
    unfold load_page
    rw [if_neg (by omega)]
    cases lookupStore s.storage n with
    | none => exact ⟨_, rfl⟩
    | some rs => exact ⟨_, rfl⟩
  refine ⟨?_, hok, ?_, ?_⟩
  · intro n h
    unfold load_page
    rw [if_pos h]
  · constructor
    · intro h
      by_contra hne
      have hlt : s.page + 1 ≤ s.total_pages := by omega
      unfold load_next at h
      rw [if_neg (by omega)] at h
      obtain ⟨out, hout⟩ := hok (s.page + 1) (by omega) hlt
      rw [hout] at h
      exact Except.noConfusion h
    · intro h
      unfold load_next
      rw [if_pos (by omega)]
  · intro h
    unfold load_next
    rw [if_neg (by omega)]

/-- Witness for `C4_pagination_range_law`: the claim's `totalPages = 5`
scenario. -/
theorem C4_witness :
    load_page (fun k => ⟨k, 5, 100, []⟩)
      (⟨1, 5, 100, [], [(1, [])], false⟩ : PageState Nat) 0 = .error .invalid
    ∧ load_page (fun k => ⟨k, 5, 100, []⟩)
        (⟨1, 5, 100, [], [(1, [])], false⟩ : PageState Nat) 6 = .error .invalid
    ∧ (∃ out, load_page (fun k => ⟨k, 5, 100, []⟩)
        (⟨1, 5, 100, [], [(1, [])], false⟩ : PageState Nat) 5 = .ok out)
    ∧ (load_next (fun k => ⟨k, 5, 100, []⟩)
        (⟨5, 5, 100, [], [(1, [])], false⟩ : PageState Nat) = .error .notFound) := by
  have h1 := C4_pagination_range_law (fun k => ⟨k, 5, 100, []⟩)
    (⟨1, 5, 100, [], [(1, [])], false⟩ : PageState Nat) (by decide) (by decide)
  have h5 := C4_pagination_range_law (fun k => ⟨k, 5, 100, []⟩)
    (⟨5, 5, 100, [], [(1, [])], false⟩ : PageState Nat) (by decide) (by decide)
  exact ⟨h1.1 0 (by decide), h1.1 6 (by decide), h1.2.1 5 (by decide) (by decide),
    h5.2.2.1.mpr (by decide)⟩

/-! ## Claim C7: the page cache -/

/-- Claim C7: every loaded page is stored in the page-number-keyed cache;
`load_page` on a cached page restores its results and sets `page` with no
fetch (first conjunct, fully general); and in the sequence `load_page(3)`,
`load_page(1)`, `load_page(3)` from a freshly constructed controller, the
fetch function is invoked exactly once for page 3 (fetch logs `[3]`, `[]`,
`[]`) and the second visit to page 3 issues no fetch. -/
theorem C7_pagination_cache_law {α : Type} (fetch : Int → PagePayload α) (P R : Int)
    (hcf : ∀ k : Int, (fetch k).page = k ∧ (fetch k).total_pages = P
      ∧ (fetch k).total_results = R)
    (hP : 3 ≤ P) :
    (∀ (t : PageState α) (n : Int) (rs : List α), ¬(n < 1 ∨ n > t.total_pages) →
      lookupStore t.storage n = some rs →
      load_page fetch t n = .ok ({ t with results := rs, page := n }, []))
    ∧ ∃ s1 s2 s3 : PageState α,
        load_page fetch (pagInit fetch).1 3 = .ok (s1, [3])
        ∧ load_page fetch s1 1 = .ok (s2, [])
        ∧ load_page fetch s2 3 = .ok (s3, [])
        ∧ s2.results = (fetch 1).results
        ∧ s3.results = (fetch 3).results
        ∧ s3.page = 3 := by
  obtain ⟨h1p, h1t, h1r⟩ := hcf 1
  obtain ⟨h3p, h3t, h3r⟩ := hcf 3
  constructor
  · intro t n rs hr hlk
    unfold load_page
    rw [if_neg hr, hlk]
  · refine ⟨⟨3, P, R, (fetch 3).results, [(1, (fetch 1).results), (3, (fetch 3).results)], true⟩,
      ⟨1, P, R, (fetch 1).results, [(1, (fetch 1).results), (3, (fetch 3).results)], true⟩,
      ⟨3, P, R, (fetch 3).results, [(1, (fetch 1).results), (3, (fetch 3).results)], true⟩,
      ?_, ?_, ?_, rfl, rfl, rfl⟩
    · have hs0 : (pagInit fetch).1
          = ⟨1, P, R, (fetch 1).results, [(1, (fetch 1).results)], false⟩ := by
        unfold pagInit pagLoad
        simp [h1p, h1t, h1r, insertStore]
      rw [hs0]
      unfold load_page
      rw [if_neg (by simp only []; omega)]
      have hlk : lookupStore
          ((⟨1, P, R, (fetch 1).results, [(1, (fetch 1).results)], false⟩ :
            PageState α).storage) 3 = Option.none := by
        simp [lookupStore, List.find?]
      rw [hlk]
      unfold pagLoad
      simp [h3p, h3t, h3r, insertStore]
    · unfold load_page
      rw [if_neg (by simp only []; omega)]
      have hlk : lookupStore
          [(1, (fetch 1).results), (3, (fetch 3).results)] 1
            = some (fetch 1).results := by
        simp [lookupStore, List.find?]
      rw [hlk]
    · unfold load_page
      rw [if_neg (by simp only []; omega)]
      have hlk : lookupStore
          [(1, (fetch 1).results), (3, (fetch 3).results)] 3
            = some (fetch 3).results := by
        simp [lookupStore, List.find?]
      rw [hlk]

/-- Witness for `C7_pagination_cache_law` with a concrete three-page
source. -/
theorem C7_witness :
    (∀ k : Int, ((fun k => ⟨k, 3, 47, [k]⟩ : Int → PagePayload Int) k).page = k
      ∧ ((fun k => ⟨k, 3, 47, [k]⟩ : Int → PagePayload Int) k).total_pages = 3
      ∧ ((fun k => ⟨k, 3, 47, [k]⟩ : Int → PagePayload Int) k).total_results = 47)
    ∧ ∃ s1 s2 s3 : PageState Int,
        load_page (fun k => ⟨k, 3, 47, [k]⟩) (pagInit (fun k => ⟨k, 3, 47, [k]⟩)).1 3
          = .ok (s1, [3])
        ∧ load_page (fun k => ⟨k, 3, 47, [k]⟩) s1 1 = .ok (s2, [])
        ∧ load_page (fun k => ⟨k, 3, 47, [k]⟩) s2 3 = .ok (s3, [])
        ∧ s2.results = [(1 : Int)]
        ∧ s3.results = [(3 : Int)]
        ∧ s3.page = 3 := by
  have hcf : ∀ k : Int, ((fun k => ⟨k, 3, 47, [k]⟩ : Int → PagePayload Int) k).page = k
      ∧ ((fun k => ⟨k, 3, 47, [k]⟩ : Int → PagePayload Int) k).total_pages = 3
      ∧ ((fun k => ⟨k, 3, 47, [k]⟩ : Int → PagePayload Int) k).total_results = 47 :=
    fun k => ⟨rfl, rfl, rfl⟩
  exact ⟨hcf, (C7_pagination_cache_law (fun k => ⟨k, 3, 47, [k]⟩) 3 47 hcf (by decide)).2⟩

/-! ## Claim C9: date coercion -/

/-- Helper: `split(".")[0]` keeps everything before the first dot. -/
theorem takeWhile_not_dot (b f : List Char) (hb : '.' ∉ b) :
    (b ++ '.' :: f).takeWhile (fun c => c ≠ '.') = b := by
  induction b with
  | nil => simp [List.takeWhile]
  | cons c b ih =>
    simp only [List.mem_cons, not_or] at hb
    have hc : c ≠ '.' := fun h => hb.1 h.symm
    rw [List.cons_append, List.takeWhile_cons, if_pos (by simpa using hc), ih hb.2]

/-- Helper: a digit character is not the letter T. -/
theorem digit_ne_T (c : Char) (h : c.isDigit = true) : c ≠ 'T' := by
  intro hc
  subst hc
  exact absurd h (by decide)

/-- Helper: `strptime("%Y-%m-%d")` on a well-formed digit string yields the
datetime of that calendar date. -/
theorem strptimeDate_digits (y1 y2 y3 y4 m1 m2 d1 d2 : Char)
    (h1 : y1.isDigit = true) (h2 : y2.isDigit = true) (h3 : y3.isDigit = true)
    (h4 : y4.isDigit = true) (h5 : m1.isDigit = true) (h6 : m2.isDigit = true)
    (h7 : d1.isDigit = true) (h8 : d2.isDigit = true)
    (hm1 : 1 ≤ 10 * (m1.toNat - 48) + (m2.toNat - 48))
    (hm2 : 10 * (m1.toNat - 48) + (m2.toNat - 48) ≤ 12)
    (hd1 : 1 ≤ 10 * (d1.toNat - 48) + (d2.toNat - 48))
    (hd2 : 10 * (d1.toNat - 48) + (d2.toNat - 48)
      ≤ daysInMonth
          (digitsVal [y1.toNat - 48, y2.toNat - 48, y3.toNat - 48, y4.toNat - 48])
          (10 * (m1.toNat - 48) + (m2.toNat - 48))) :
    strptimeDate [y1, y2, y3, y4, '-', m1, m2, '-', d1, d2]
      = some ⟨digitsVal [y1.toNat - 48, y2.toNat - 48, y3.toNat - 48, y4.toNat - 48],
              10 * (m1.toNat - 48) + (m2.toNat - 48),
              10 * (d1.toNat - 48) + (d2.toNat - 48), 0, 0, 0⟩ := by
  unfold strptimeDate parseYear4 parseDigits2 expectChar
  simp only [h1, h2, h3, h4, h5, h6, h7, h8, Bool.and_self, if_true, Option.bind_eq_bind,
    Option.some_bind, beq_self_eq_true, List.map_cons, List.map_nil]
  rw [if_pos ⟨by simp, hm1, hm2, hd1, hd2⟩]

/-- Helper: the date branch of `_parse` on a non-empty string without a T. -/
theorem dateParse_bare_general (selfData : JSON) (din : Bool) (key : Option String)
    (cs : List Char) (dt : PyDateTime) (hne : cs ≠ [])
    (hct : cs.contains 'T' = false) (hparse : strptimeDate cs = some dt) :
    tmdbParse selfData (some (.str (String.mk cs))) [] "date" din false false false key
      = .ok (.date dt) := by
  have hred : tmdbParse selfData (some (.str (String.mk cs))) [] "date" din false false
      false key
      = (if cs.isEmpty = true then (Except.ok PyValue.none : Except String PyValue)
         else if cs.contains 'T' = true then
           match strptimeDT (cs.dropLast.takeWhile (fun c => c ≠ '.')) with
           | some dt => .ok (.date dt)
           | Option.none => .error "ValueError: time data does not match format"
         else
           match strptimeDate cs with
           | some dt => .ok (.date dt)
           | Option.none => .error "ValueError: time data does not match format") := rfl
  rw [hred, if_neg (by simp [hne]), if_neg (by rw [hct]; exact Bool.false_ne_true), hparse]

/-- Helper: the date branch of `_parse` on a timestamp of the form
`<base>.<fraction>Z` where the base contains a T and no dot: the code drops
the trailing zone character, truncates at the first dot, and parses the
base. -/
theorem dateParse_timestamp_general (selfData : JSON) (din : Bool) (key : Option String)
    (b f : List Char) (dt : PyDateTime)
    (hT : 'T' ∈ b) (hdot : '.' ∉ b) (hparse : strptimeDT b = some dt) :
    tmdbParse selfData (some (.str (String.mk (b ++ '.' :: f ++ ['Z'])))) [] "date"
      din false false false key = .ok (.date dt) := by
  have hred : tmdbParse selfData (some (.str (String.mk (b ++ '.' :: f ++ ['Z'])))) []
      "date" din false false false key
      = (if (b ++ '.' :: f ++ ['Z']).isEmpty = true
           then (Except.ok PyValue.none : Except String PyValue)
         else if (b ++ '.' :: f ++ ['Z']).contains 'T' = true then
           match strptimeDT ((b ++ '.' :: f ++ ['Z']).dropLast.takeWhile
             (fun c => c ≠ '.')) with
           | some dt => .ok (.date dt)
           | Option.none => .error "ValueError: time data does not match format"
         else
           match strptimeDate (b ++ '.' :: f ++ ['Z']) with
           | some dt => .ok (.date dt)
           | Option.none => .error "ValueError: time data does not match format") := rfl
  have hdl : (b ++ '.' :: f ++ ['Z']).dropLast = b ++ '.' :: f := by
    rw [show b ++ '.' :: f ++ ['Z'] = (b ++ '.' :: f) ++ ['Z'] by simp]
    exact List.dropLast_concat
  rw [hred, if_neg (by cases b <;> simp), if_pos (by simp; exact Or.inl hT), hdl,
    takeWhile_not_dot b f hdot, hparse]

/-- Claim C9: date coercion returns `None` on absent or empty input
regardless of `default_is_none`; on a bare well-formed `YYYY-MM-DD` string
it returns the datetime of that calendar date; and on a timestamp
`<base>.<fraction>Z` whose base contains a `T` and no dot it discards the
fraction and the trailing zone marker and parses the base as
`%Y-%m-%dT%H:%M:%S` — in particular `"2020-12-25T10:30:00.000Z"` coerces to
the same value as constructing `2020-12-25T10:30:00` directly. -/
theorem C9_date_coercion :
    (∀ (selfData : JSON) (data : Option JSON) (attrs : List String)
        (key : Option String) (din : Bool),
      resolveAttrs (dataOrSelf selfData data) attrs = .ok Option.none →
      tmdbParse selfData data attrs "date" din false false false key = .ok .none)
    ∧ (∀ (selfData : JSON) (key : Option String) (din : Bool),
      tmdbParse selfData (some (.str "")) [] "date" din false false false key = .ok .none)
    ∧ (∀ (selfData : JSON) (key : Option String) (din : Bool)
        (y1 y2 y3 y4 m1 m2 d1 d2 : Char),
      y1.isDigit = true → y2.isDigit = true → y3.isDigit = true → y4.isDigit = true →
      m1.isDigit = true → m2.isDigit = true → d1.isDigit = true → d2.isDigit = true →
      1 ≤ 10 * (m1.toNat - 48) + (m2.toNat - 48) →
      10 * (m1.toNat - 48) + (m2.toNat - 48) ≤ 12 →
      1 ≤ 10 * (d1.toNat - 48) + (d2.toNat - 48) →
      10 * (d1.toNat - 48) + (d2.toNat - 48)
        ≤ daysInMonth
            (digitsVal [y1.toNat - 48, y2.toNat - 48, y3.toNat - 48, y4.toNat - 48])
            (10 * (m1.toNat - 48) + (m2.toNat - 48)) →
      tmdbParse selfData (some (.str (String.mk [y1, y2, y3, y4, '-', m1, m2, '-', d1, d2])))
          [] "date" din false false false key
        = .ok (.date ⟨digitsVal [y1.toNat - 48, y2.toNat - 48, y3.toNat - 48, y4.toNat - 48],
            10 * (m1.toNat - 48) + (m2.toNat - 48),
            10 * (d1.toNat - 48) + (d2.toNat - 48), 0, 0, 0⟩))
    ∧ (∀ (selfData : JSON) (key : Option String) (din : Bool) (b f : List Char)
        (dt : PyDateTime),
      'T' ∈ b → '.' ∉ b → strptimeDT b = some dt →
      tmdbParse selfData (some (.str (String.mk (b ++ '.' :: f ++ ['Z'])))) [] "date"
          din false false false key = .ok (.date dt))
    ∧ tmdbParse (.obj []) (some (.str "2020-12-25")) [] "date" false false false false
        Option.none = .ok (.date ⟨2020, 12, 25, 0, 0, 0⟩)
    ∧ tmdbParse (.obj []) (some (.str "2020-12-25T10:30:00.000Z")) [] "date" false false
        false false Option.none = .ok (.date ⟨2020, 12, 25, 10, 30, 0⟩) := by
  refine ⟨?_, ?_, ?_, ?_, rfl, rfl⟩
  · intro selfData data attrs key din hmiss
    rw [tmdbParse_missing_default selfData data attrs "date" din false false false key hmiss]
    cases din <;> rfl
  · intro selfData key din
    rfl
  · intro selfData key din y1 y2 y3 y4 m1 m2 d1 d2 h1 h2 h3 h4 h5 h6 h7 h8 hm1 hm2 hd1 hd2
    have hnm : 'T' ∉ ([y1, y2, y3, y4, '-', m1, m2, '-', d1, d2] : List Char) := by
      simp only [List.mem_cons, List.not_mem_nil, or_false]
      push_neg
      exact ⟨fun h => digit_ne_T y1 h1 h.symm, fun h => digit_ne_T y2 h2 h.symm,
        fun h => digit_ne_T y3 h3 h.symm, fun h => digit_ne_T y4 h4 h.symm,
        by decide, fun h => digit_ne_T m1 h5 h.symm, fun h => digit_ne_T m2 h6 h.symm,
        by decide, fun h => digit_ne_T d1 h7 h.symm, fun h => digit_ne_T d2 h8 h.symm⟩
    have hct : ([y1, y2, y3, y4, '-', m1, m2, '-', d1, d2] : List Char).contains 'T'
        = false := by simp [hnm]
    exact dateParse_bare_general selfData din key _ _ (List.cons_ne_nil _ _) hct
      (strptimeDate_digits y1 y2 y3 y4 m1 m2 d1 d2 h1 h2 h3 h4 h5 h6 h7 h8 hm1 hm2 hd1 hd2)
  · intro selfData key din b f dt hT hdot hparse
    exact dateParse_timestamp_general selfData din key b f dt hT hdot hparse

/-- Witness for `C9_date_coercion` at concrete inputs: a missing path, the
digits of 2020-12-25, and the timestamp base 2020-12-25T10:30:00. -/
theorem C9_witness :
    resolveAttrs (dataOrSelf (.obj []) Option.none) ["release_date"] = .ok Option.none
    ∧ tmdbParse (.obj []) Option.none ["release_date"] "date" true false false false
        Option.none = .ok .none
    ∧ tmdbParse (.obj []) (some (.str (String.mk ['2', '0', '2', '0', '-', '1', '2', '-',
        '2', '5']))) [] "date" false false false false Option.none
      = .ok (.date ⟨digitsVal ['2'.toNat - 48, '0'.toNat - 48, '2'.toNat - 48,
          '0'.toNat - 48], 10 * ('1'.toNat - 48) + ('2'.toNat - 48),
          10 * ('2'.toNat - 48) + ('5'.toNat - 48), 0, 0, 0⟩)
    ∧ strptimeDT ("2020-12-25T10:30:00".data) = some ⟨2020, 12, 25, 10, 30, 0⟩
    ∧ tmdbParse (.obj [])
        (some (.str (String.mk ("2020-12-25T10:30:00".data ++ '.' :: "000".data ++ ['Z']))))
        [] "date" false false false false Option.none
      = .ok (.date ⟨2020, 12, 25, 10, 30, 0⟩) := by
  have h := C9_date_coercion
  refine ⟨rfl, h.1 (.obj []) Option.none ["release_date"] Option.none true rfl, ?_, rfl, ?_⟩
  · exact h.2.2.1 (.obj []) Option.none false '2' '0' '2' '0' '1' '2' '2' '5'
      (by decide) (by decide) (by decide) (by decide) (by decide) (by decide) (by decide)
      (by decide) (by decide) (by decide) (by decide) (by decide)
  · exact h.2.2.2.1 (.obj []) Option.none false ("2020-12-25T10:30:00".data) ("000".data)
      ⟨2020, 12, 25, 10, 30, 0⟩ (by decide) (by decide) rfl

/-! ## Claim C1: the partial/lazy reload protocol -/

/-- Representative subset of the `Movie._load` field list (reload.py lines
535-597): integer `id` and `budget`, string `overview` and `title`. -/
def movieSchemaC : List (String × FieldSpec) :=
  [("id", ⟨["id"], "int", false, false, false, false, Option.none⟩),
   ("budget", ⟨["budget"], "int", false, false, false, false, Option.none⟩),
   ("overview", ⟨["overview"], "str", false, false, false, false, Option.none⟩),
   ("title", ⟨["title"], "str", false, false, false, false, Option.none⟩)]

/-- The stub fragment of the claim: `{id: 5}`. -/
def movieStubC : JSON := .obj [("id", .int 5)]

/-- The full payload the full-load endpoint would return for the stub. -/
def movieFullC : JSON :=
  .obj [("id", .int 5), ("budget", .int 63000000),
        ("overview", .str "A ticking-time-bomb insomniac."), ("title", .str "Fight Club")]

/-- The settled partial state produced by constructing the stub: the integer
field `budget` resolved to the default `0`, the string fields to `None`. -/
def movieStubState : EntityState :=
  { loading := false, partFlag := true, rawData := some movieStubC,
    attrs := [("id", .int 5), ("budget", .int 0), ("overview", PyValue.none),
              ("title", PyValue.none)] }

/-- Claim C1 counterexample: on the settled stub built from `{id: 5}` with
`partial=true`, the field `budget` resolves to the default/empty value `0`,
yet reading it issues zero fetches, not the "exactly one" the claim states —
`__getattribute__` reloads only when the stored value is `None` (base.py
line 60). -/
theorem C1_counterexample :
    entityLoad movieFullC movieSchemaC (some movieStubC) = .ok (movieStubState, 0)
    ∧ getattribute movieFullC movieSchemaC movieStubState "budget"
        = .ok (.int 0, movieStubState, 0)
    ∧ (0 : Nat) ≠ 1 :=
  ⟨rfl, rfl, by decide⟩

/-- Helper: a full load (`_load(None)`) clears the partial flag and issues
exactly one fetch. -/
theorem entityLoad_none_eq (fullLoad : JSON) (schema : List (String × FieldSpec))
    (out : EntityState × Nat)
    (h : entityLoad fullLoad schema Option.none = .ok out) :
    out.1.partFlag = false ∧ out.2 = 1 := by
  unfold entityLoad at h
  simp only [dataOrSelf] at h
  cases hf : populateFields fullLoad schema with
  | error e =>
    rw [hf] at h
    exact absurd h (by simp)
  | ok fields =>
    rw [hf] at h
    simp only [Except.ok.injEq] at h
    rw [← h]
    exact ⟨rfl, rfl⟩

/-- Helper: once the entity is no longer partial, any sequence of external
reads issues zero fetches and leaves the state unchanged. -/
theorem readSeq_no_refetch (fullLoad : JSON) (schema : List (String × FieldSpec))
    (items : List String) :
    ∀ s : EntityState, s.partFlag = false → readSeq fullLoad schema s items = (s, 0) := by
  induction items with
  | nil => intro s _; rfl
  | cons item rest ih =>
    intro s hnp
    have hga : ∀ v, lookupAttr s.attrs item = some v →
        getattribute fullLoad schema s item = .ok (v, s, 0) := by
      intro v hlk
      simp only [getattribute, hlk]
      rw [if_pos (by rw [hnp]; simp)]
    cases hlk : lookupAttr s.attrs item with
    | none =>
      simp [readSeq, getattribute, hlk]
    | some v =>
      simp [readSeq, hga v hlk, ih s hnp]

/-- Helper: every successful external read either leaves the state unchanged
with zero fetches, or ends in a non-partial state with exactly one fetch. -/
theorem getattribute_cases (fullLoad : JSON) (schema : List (String × FieldSpec))
    (s : EntityState) (item : String) (v : PyValue) (s' : EntityState) (n : Nat)
    (h : getattribute fullLoad schema s item = .ok (v, s', n)) :
    (s' = s ∧ n = 0) ∨ (s'.partFlag = false ∧ n = 1) := by
  cases hlk : lookupAttr s.attrs item with
  | none => simp [getattribute, hlk] at h
  | some value =>
    simp only [getattribute, hlk] at h
    by_cases hc : (startsUnderscore item || s.loading || !s.partFlag
        || !(isPyNone value)) = true
    · rw [if_pos hc] at h
      simp only [Except.ok.injEq, Prod.mk.injEq] at h
      exact Or.inl ⟨h.2.1.symm, h.2.2.symm⟩
    · rw [if_neg hc] at h
      cases hel : entityLoad fullLoad schema Option.none with
      | error e => simp [hel] at h
      | ok out =>
        obtain ⟨s2, n2⟩ := out
        obtain ⟨hpf, hn1⟩ := entityLoad_none_eq fullLoad schema (s2, n2) hel
        simp only [hel] at h
        cases hlk2 : lookupAttr s2.attrs item with
        | none => simp [hlk2] at h
        | some v2 =>
          simp only [hlk2, Except.ok.injEq, Prod.mk.injEq] at h
          exact Or.inr ⟨h.2.1 ▸ hpf, h.2.2 ▸ hn1⟩

/-- Helper: over its whole lifetime, an entity issues at most one lazy
fetch, whatever attributes are read in whatever order. -/
theorem readSeq_fetch_le_one (fullLoad : JSON) (schema : List (String × FieldSpec))
    (items : List String) :
    ∀ s : EntityState, (readSeq fullLoad schema s items).2 ≤ 1 := by
  induction items with
  | nil => intro s; exact Nat.zero_le 1
  | cons item rest ih =>
    intro s
    unfold readSeq
    cases hga : getattribute fullLoad schema s item with
    | error e => exact Nat.zero_le 1
    | ok out =>
      obtain ⟨v, s', n⟩ := out
      rcases getattribute_cases fullLoad schema s item v s' n hga with ⟨hs, hn⟩ | ⟨hpf, hn⟩
      · subst hn
        simpa using ih s'
      · subst hn
        have h0 : readSeq fullLoad schema s' rest = (s', 0) :=
          readSeq_no_refetch fullLoad schema rest s' hpf
        simp [h0]

/-- Claim C1, amended: on a settled partial entity, the first external read
of a field whose stored value is `None` (the null default — fields that
resolved to `0` or `[]` do not trigger, see the counterexample) issues
exactly one full-load fetch, re-populates from the full payload and clears
`partial`; every read after that issues zero fetches, and over any sequence
of reads the entity issues at most one lazy fetch in its lifetime. -/
theorem C1_amended_lazy_fetch_at_most_once (fullLoad : JSON)
    (schema : List (String × FieldSpec)) (s s' : EntityState) (item : String)
    (v2 : PyValue)
    (hsettled : s.loading = false) (hpart : s.partFlag = true)
    (hitem : startsUnderscore item = false)
    (hval : lookupAttr s.attrs item = some PyValue.none)
    (hload : entityLoad fullLoad schema Option.none = .ok (s', 1))
    (hv2 : lookupAttr s'.attrs item = some v2) :
    getattribute fullLoad schema s item = .ok (v2, s', 1)
    ∧ s'.partFlag = false
    ∧ (∀ items : List String, (readSeq fullLoad schema s' items).2 = 0)
    ∧ (∀ items : List String, (readSeq fullLoad schema s items).2 ≤ 1) := by
  have hpf : s'.partFlag = false := (entityLoad_none_eq fullLoad schema (s', 1) hload).1
  refine ⟨?_, hpf, ?_, fun items => readSeq_fetch_le_one fullLoad schema items s⟩
  · simp only [getattribute, hval, hload]
    rw [if_neg (by rw [hitem, hsettled, hpart]; simp [isPyNone])]
    simp only [hv2]
  · intro items
    rw [readSeq_no_refetch fullLoad schema items s' hpf]

/-- Witness for `C1_amended_lazy_fetch_at_most_once`: reading `title` (which
parsed to `None`) on the `{id: 5}` movie stub. -/
theorem C1_witness :
    movieStubState.loading = false
    ∧ movieStubState.partFlag = true
    ∧ lookupAttr movieStubState.attrs "title" = some PyValue.none
    ∧ getattribute movieFullC movieSchemaC movieStubState "title"
        = .ok (.str "Fight Club",
            { loading := false, partFlag := false, rawData := some movieFullC,
              attrs := [("id", .int 5), ("budget", .int 63000000),
                ("overview", .str "A ticking-time-bomb insomniac."),
                ("title", .str "Fight Club")] }, 1)
    ∧ (∀ items : List String,
        (readSeq movieFullC movieSchemaC movieStubState items).2 ≤ 1) := by
  have h := C1_amended_lazy_fetch_at_most_once movieFullC movieSchemaC movieStubState
    { loading := false, partFlag := false, rawData := some movieFullC,
      attrs := [("id", .int 5), ("budget", .int 63000000),
        ("overview", .str "A ticking-time-bomb insomniac."),
        ("title", .str "Fight Club")] }
    "title" (.str "Fight Club") rfl rfl rfl rfl rfl rfl
  exact ⟨rfl, rfl, rfl, h.1, h.2.2.2⟩

/-! ## Claim C5: get_results -/

/-- A page source that reports the page it was asked for and stable totals
(the normal behaviour of the TMDb endpoints). -/
def ConsistentFetch {α : Type} (fetch : Int → PagePayload α) (P R : Int) : Prop :=
  ∀ n : Int, (fetch n).page = n ∧ (fetch n).total_pages = P ∧ (fetch n).total_results = R

/-- Every cached page holds exactly the results of that page. -/
def StorageOK {α : Type} (fetch : Int → PagePayload α) (st : List (Int × List α)) : Prop :=
  ∀ (k : Int) (rs : List α), lookupStore st k = some rs → rs = (fetch k).results

/-- Concatenation of the results of pages `1..m`. -/
def pagesConcat {α : Type} (fetch : Int → PagePayload α) : Nat → List α
  | 0 => []
  | m + 1 => pagesConcat fetch m ++ (fetch ((m : Int) + 1)).results

/-- Helper: lookup in the first-with-key-replaced map used by `insertStore`
when the key is already present. -/
theorem lookupStore_map_replace {α : Type} (st : List (Int × List α)) (n k : Int)
    (rs : List α) :
    lookupStore (st.map (fun e => if e.1 == n then (n, rs) else e)) k
      = if n = k then (if st.any (fun e => e.1 == n) then some rs else Option.none)
        else lookupStore st k := by
  induction st with
  | nil => by_cases h : n = k <;> simp [lookupStore, h]
  | cons e st ih =>
    obtain ⟨k0, v0⟩ := e
    by_cases hk0 : (k0 == n) = true
    · have hk0' : k0 = n := eq_of_beq hk0
      subst hk0'
      by_cases h : k0 = k
      · subst h
        simp [lookupStore, hk0]
      · simp only [List.map_cons, if_pos hk0, List.any_cons, hk0, Bool.true_or, if_true]
        rw [show lookupStore ((k0, rs) :: st.map (fun e => if e.1 == k0 then (k0, rs) else e)) k
            = lookupStore (st.map (fun e => if e.1 == k0 then (k0, rs) else e)) k from by
          simp [lookupStore, beq_eq_false_iff_ne.mpr h]]
        rw [ih]
        simp [h, lookupStore, beq_eq_false_iff_ne.mpr h]
    · simp only [List.map_cons, if_neg hk0]
      by_cases h : k0 = k
      · subst h
        have hnk : ¬ n = k0 := fun hh => hk0 (by simp [hh])
        simp [lookupStore, if_neg (fun hh : n = k0 => hnk hh), beq_self_eq_true]
      · rw [show lookupStore ((k0, v0) :: st.map (fun e => if e.1 == n then (n, rs) else e)) k
            = lookupStore (st.map (fun e => if e.1 == n then (n, rs) else e)) k from by
          simp [lookupStore, beq_eq_false_iff_ne.mpr h]]
        rw [ih]
        rw [Bool.not_eq_true] at hk0
        by_cases hnk : n = k
        · rw [List.any_cons, hk0, Bool.false_or]
          simp [hnk]
        · simp [hnk, lookupStore, beq_eq_false_iff_ne.mpr h]

/-- Helper: cache lookup distributes over append. -/
theorem lookupStore_append {α : Type} (st1 st2 : List (Int × List α)) (k : Int) :
    lookupStore (st1 ++ st2) k
      = match lookupStore st1 k with
        | some rs => some rs
        | Option.none => lookupStore st2 k := by
  induction st1 with
  | nil => simp [lookupStore]
  | cons e st1 ih =>
    by_cases he : (e.1 == k) = true
    · simp [lookupStore, he]
    · simp only [List.cons_append]
      rw [show lookupStore (e :: (st1 ++ st2)) k = lookupStore (st1 ++ st2) k from by
        simp [lookupStore, he]]
      rw [show lookupStore (e :: st1) k = lookupStore st1 k from by simp [lookupStore, he]]
      exact ih

/-- Helper: if no entry has key `n`, lookup of `n` fails. -/
theorem lookupStore_not_any {α : Type} (st : List (Int × List α)) (n : Int)
    (hany : ¬ st.any (fun e => e.1 == n) = true) :
    lookupStore st n = Option.none := by
  induction st with
  | nil => rfl
  | cons e st ih =>
    simp only [List.any_cons, Bool.or_eq_true, not_or] at hany
    rw [show lookupStore (e :: st) n = lookupStore st n from by simp [lookupStore, hany.1]]
    exact ih hany.2

/-- Specification of `insertStore`: the inserted page shadows any old entry,
everything else is unchanged. -/
theorem lookupStore_insertStore {α : Type} (st : List (Int × List α)) (n k : Int)
    (rs : List α) :
    lookupStore (insertStore st n rs) k
      = if n = k then some rs else lookupStore st k := by
  unfold insertStore
  by_cases hany : st.any (fun e => e.1 == n) = true
  · rw [if_pos hany, lookupStore_map_replace, hany]
    by_cases h : n = k <;> simp [h]
  · rw [if_neg hany, lookupStore_append]
    by_cases h : n = k
    · subst h
      rw [lookupStore_not_any st n hany]
      simp [lookupStore]
    · cases hl : lookupStore st k with
      | none => simp [hl, h, lookupStore, beq_eq_false_iff_ne.mpr h]
      | some v => simp [hl, h]

/-- Helper: in-range cached load restores from the cache. -/
theorem load_page_cached {α : Type} (fetch : Int → PagePayload α) (s : PageState α)
    (n : Int) (rs : List α) (hr : ¬(n < 1 ∨ n > s.total_pages))
    (hlk : lookupStore s.storage n = some rs) :
    load_page fetch s n = .ok ({ s with results := rs, page := n }, []) := by
  unfold load_page
  rw [if_neg hr, hlk]

/-- Helper: in-range uncached load reloads from the fetched payload. -/
theorem load_page_uncached {α : Type} (fetch : Int → PagePayload α) (s : PageState α)
    (n : Int) (hr : ¬(n < 1 ∨ n > s.total_pages))
    (hlk : lookupStore s.storage n = Option.none) :
    load_page fetch s n = .ok ((pagLoad fetch s.storage (some (fetch n))).1, [n]) := by
  unfold load_page
  rw [if_neg hr, hlk]

/-- Helper: the accumulation loop exits as soon as its guard fails. -/
theorem grLoop_exit {α : Type} (fetch : Int → PagePayload α) (amount : Int) (fuel : Nat)
    (acc : List α) (cp : Int) (s : PageState α) (visited flog : List Int)
    (hg : ¬(((acc.length : Int) < amount) ∧ cp < s.total_pages)) :
    grLoop fetch amount fuel acc cp s visited flog = .ok (acc, s, visited, flog) := by
  unfold grLoop
  rw [if_neg hg]

/-- Helper: later pages extend the concatenation of earlier ones. -/
theorem pagesConcat_prefix {α : Type} (fetch : Int → PagePayload α) (a b : Nat)
    (h : a ≤ b) : ∃ suffix, pagesConcat fetch b = pagesConcat fetch a ++ suffix := by
  induction b with
  | zero =>
    obtain rfl := Nat.le_zero.mp h
    exact ⟨[], by simp [pagesConcat]⟩
  | succ b ih =>
    rcases Nat.lt_or_ge a (b + 1) with hab | hab
    · obtain ⟨suf, hsuf⟩ := ih (Nat.lt_succ_iff.mp hab)
      exact ⟨suf ++ (fetch ((b : Int) + 1)).results, by
        simp only [pagesConcat, hsuf, List.append_assoc]⟩
    · have heq : a = b + 1 := Nat.le_antisymm h hab
      subst heq
      exact ⟨[], by simp⟩

/-- Main loop lemma for `get_results`: starting after `c` full pages with the
concatenation of pages `1..c` accumulated and fewer than `amount` elements,
the loop returns the first `amount` elements of the whole collection,
visiting exactly pages `c+1..m` where `m` is the first point at which
`amount` elements are available (or `P` if the pages run out first). -/
theorem grLoop_spec {α : Type} (fetch : Int → PagePayload α) (P R amount : Int)
    (hcf : ConsistentFetch fetch P R) :
    ∀ (fuel : Nat) (c : Nat) (s : PageState α) (visited flog : List Int),
      s.total_pages = P →
      StorageOK fetch s.storage →
      (c : Int) ≤ P →
      P.toNat ≤ fuel + c →
      ((pagesConcat fetch c).length : Int) < amount →
      ∃ (m : Nat) (sOut : PageState α) (flogOut : List Int),
        grLoop fetch amount fuel (pagesConcat fetch c) (c : Int) s visited flog
          = .ok ((pagesConcat fetch P.toNat).take amount.toNat, sOut,
                 visited ++ (List.range' (c + 1) (m - c)).map (fun k => (k : Int)),
                 flogOut)
        ∧ c ≤ m ∧ m ≤ P.toNat
        ∧ (∀ j : Nat, c ≤ j → j < m → ((pagesConcat fetch j).length : Int) < amount)
        ∧ (amount ≤ ((pagesConcat fetch m).length : Int) ∨ m = P.toNat) := by
  intro fuel
  induction fuel with
  | zero =>
    intro c s visited flog ht hst hcP hfc hlt
    have hc : c = P.toNat := by omega
    refine ⟨c, s, flog, ?_, le_refl c, by omega, fun j h1 h2 => by omega, Or.inr hc⟩
    rw [grLoop_exit fetch amount 0 (pagesConcat fetch c) (c : Int) s visited flog
      (by rw [ht]; intro hcon; omega)]
    rw [← hc, List.take_of_length_le (by omega), Nat.sub_self]
    simp
  | succ fuel' ih =>
    intro c s visited flog ht hst hcP hfc hlt
    by_cases hg : ((pagesConcat fetch c).length : Int) < amount ∧ (c : Int) < s.total_pages
    case neg =>
      have hc : c = P.toNat := by
        rw [ht] at hg
        push_neg at hg
        have := hg hlt
        omega
      refine ⟨c, s, flog, ?_, le_refl c, by omega, fun j h1 h2 => by omega, Or.inr hc⟩
      rw [grLoop_exit fetch amount _ _ _ _ _ _ hg]
      rw [← hc, List.take_of_length_le (by omega), Nat.sub_self]
      simp
    case pos =>
      have hcPlt : (c : Int) < P := ht ▸ hg.2
      obtain ⟨hpg, hpt, hpr⟩ := hcf ((c : Int) + 1)
      have hrange : ¬(((c : Int) + 1) < 1 ∨ ((c : Int) + 1) > s.total_pages) := by
        rw [ht]
        intro hcon
        omega
      have hload : ∃ (s' : PageState α) (f : List Int),
          load_page fetch s ((c : Int) + 1) = .ok (s', f)
          ∧ s'.results = (fetch ((c : Int) + 1)).results
          ∧ s'.total_pages = P
          ∧ StorageOK fetch s'.storage := by
        cases hlk : lookupStore s.storage ((c : Int) + 1) with
        | some rs =>
          exact ⟨_, _, load_page_cached fetch s _ rs hrange hlk, hst _ _ hlk, ht, hst⟩
        | none =>
          refine ⟨_, _, load_page_uncached fetch s _ hrange hlk, rfl, hpt, ?_⟩
          intro k rs' hk
          rw [show (pagLoad fetch s.storage (some (fetch ((c : Int) + 1)))).1.storage
              = insertStore s.storage (fetch ((c : Int) + 1)).page
                  (fetch ((c : Int) + 1)).results from rfl, hpg,
            lookupStore_insertStore] at hk
          by_cases hkc : (c : Int) + 1 = k
          · rw [if_pos hkc] at hk
            simp only [Option.some.injEq] at hk
            rw [← hk, ← hkc]
          · rw [if_neg hkc] at hk
            exact hst k rs' hk
      obtain ⟨s', f, hlp, hres, ht', hst'⟩ := hload
      have hstep : grLoop fetch amount (fuel' + 1) (pagesConcat fetch c) (c : Int) s
          visited flog
          = grLoop fetch amount fuel'
              (if ((pagesConcat fetch c).length : Int) + (s'.results.length : Int) < amount
               then pagesConcat fetch c ++ s'.results
               else pagesConcat fetch c
                 ++ s'.results.take ((amount - ((pagesConcat fetch c).length : Int)).toNat))
              ((c : Int) + 1) s' (visited ++ [(c : Int) + 1]) (flog ++ f) := by
        conv_lhs => rw [grLoop]
        rw [if_pos hg]
        simp only [hlp]
      by_cases hb : ((pagesConcat fetch c).length : Int) + (s'.results.length : Int) < amount
      case pos =>
        have hacc : pagesConcat fetch c ++ s'.results = pagesConcat fetch (c + 1) := by
          rw [hres]
          rfl
        have hlt' : ((pagesConcat fetch (c + 1)).length : Int) < amount := by
          rw [← hacc]
          simpa using hb
        have hc1 : ((c : Int) + 1) = (((c + 1 : Nat) : Int)) := by push_cast; ring
        obtain ⟨m, sOut, flogOut, heq, hcm, hmP, hmin, hfin⟩ :=
          ih (c + 1) s' (visited ++ [((c + 1 : Nat) : Int)]) (flog ++ f) ht' hst'
            (by push_cast; omega) (by omega) hlt'
        refine ⟨m, sOut, flogOut, ?_, by omega, hmP, ?_, hfin⟩
        · rw [hstep, if_pos hb, hacc, hc1, heq]
          have hv : (visited ++ [((c + 1 : Nat) : Int)])
                ++ (List.range' (c + 1 + 1) (m - (c + 1))).map (fun k => (k : Int))
              = visited ++ (List.range' (c + 1) (m - c)).map (fun k => (k : Int)) := by
            rw [List.append_assoc]
            congr 1
            rw [show m - c = (m - (c + 1)) + 1 from by omega, List.range'_succ]
            simp
          rw [hv]
        · intro j h1 h2
          rcases Nat.eq_or_lt_of_le h1 with h1e | h1lt
          · rw [← h1e]
            exact hg.1
          · exact hmin j h1lt h2
      case neg =>
        rw [hres] at hstep hb
        refine ⟨c + 1, s', flog ++ f, ?_, by omega, by omega, ?_, Or.inl ?_⟩
        · rw [hstep, if_neg hb]
          have hlen : (pagesConcat fetch c
                ++ (fetch ((c : Int) + 1)).results.take
                  ((amount - ((pagesConcat fetch c).length : Int)).toNat)).length
              = amount.toNat := by
            rw [List.length_append, List.length_take]
            omega
          rw [grLoop_exit _ _ _ _ _ _ _ _ (by rw [hlen]; intro hcon; omega)]
          have htake : (pagesConcat fetch P.toNat).take amount.toNat
              = pagesConcat fetch c
                ++ (fetch ((c : Int) + 1)).results.take
                  ((amount - ((pagesConcat fetch c).length : Int)).toNat) := by
            obtain ⟨suf, hsuf⟩ := pagesConcat_prefix fetch (c + 1) P.toNat (by omega)
            have hc1 : pagesConcat fetch (c + 1)
                = pagesConcat fetch c ++ (fetch ((c : Int) + 1)).results := rfl
            rw [hsuf, List.take_append_of_le_length (by rw [hc1]; simp; omega), hc1,
              List.take_append_eq_append_take,
              List.take_of_length_le (by omega)]
            congr 1
            congr 1
            omega
          rw [htake]
          have hrg : (List.range' (c + 1) (c + 1 - c)).map (fun k => (k : Int))
              = [(c : Int) + 1] := by
            rw [show c + 1 - c = 1 from by omega]
            simp [List.range']
          rw [hrg]
        · intro j h1 h2
          have hjc : j = c := by omega
          rw [hjc]
          exact hg.1
        · have hc1 : pagesConcat fetch (c + 1)
              = pagesConcat fetch c ++ (fetch ((c : Int) + 1)).results := rfl
          rw [hc1]
          simp
          omega

/-- Claim C5: on a freshly constructed controller over a consistent source
with `P` pages and `R` total results, `get_results(amount)` raises `Invalid`
for every `amount < 1`; otherwise the amount is clamped to `R` and the call
returns exactly `min amount R` elements — the first `min amount R` elements
of the concatenation of all pages — visiting pages `1..m` where `m` is the
first page count that yields enough elements (every shorter prefix is too
short), or all `P` pages. -/
theorem C5_get_results_clamp_accumulate {α : Type} (fetch : Int → PagePayload α)
    (P R amount : Int) (hcf : ConsistentFetch fetch P R) (hP : 1 ≤ P)
    (hR : R = ((pagesConcat fetch P.toNat).length : Int)) (hRpos : 1 ≤ R)
    (hamount : 1 ≤ amount) :
    (∀ a : Int, a < 1 → get_results fetch (pagInit fetch).1 a = .error .invalid)
    ∧ ∃ (sOut : PageState α) (flogOut : List Int) (m : Nat),
        get_results fetch (pagInit fetch).1 amount
          = .ok ((pagesConcat fetch P.toNat).take (min amount R).toNat, sOut,
                 (List.range' 1 m).map (fun k => (k : Int)), flogOut)
        ∧ ((pagesConcat fetch P.toNat).take (min amount R).toNat).length
            = (min amount R).toNat
        ∧ m ≤ P.toNat
        ∧ (∀ j : Nat, j < m → ((pagesConcat fetch j).length : Int) < min amount R)
        ∧ (min amount R ≤ ((pagesConcat fetch m).length : Int) ∨ m = P.toNat) := by
  obtain ⟨h1p, h1t, h1r⟩ := hcf 1
  have hs0 : (pagInit fetch).1
      = ⟨1, P, R, (fetch 1).results, [((1 : Int), (fetch 1).results)], false⟩ := by
    unfold pagInit pagLoad
    simp [h1p, h1t, h1r, insertStore]
  have hst0 : StorageOK fetch [((1 : Int), (fetch 1).results)] := by
    intro k rs hk
    rw [show lookupStore [((1 : Int), (fetch 1).results)] k
        = if ((1 : Int) == k) then some (fetch 1).results else Option.none from rfl] at hk
    by_cases h1k : ((1 : Int) == k) = true
    · rw [if_pos h1k] at hk
      simp only [Option.some.injEq] at hk
      rw [← hk, ← eq_of_beq h1k]
    · rw [if_neg h1k] at hk
      exact Option.noConfusion hk
  constructor
  · intro a ha
    rw [hs0]
    show (if (if a > R then R else a) < 1 then (.error .invalid : Except PagErr _)
          else _) = .error .invalid
    rw [if_neg (by omega : ¬ a > R), if_pos (by omega : a < 1)]
  · have hclamp : (if amount > R then R else amount) = min amount R := by
      rcases le_or_lt amount R with h | h
      · rw [if_neg (by omega), min_eq_left h]
      · rw [if_pos h, min_eq_right (le_of_lt h)]
    have hamt1 : 1 ≤ min amount R := le_min hamount hRpos
    have hamtR : min amount R ≤ R := min_le_right amount R
    obtain ⟨m, sOut, flogOut, heq, hcm, hmP, hmin, hfin⟩ :=
      grLoop_spec fetch P R (min amount R) hcf (P.toNat + 1) 0
        (⟨1, P, R, (fetch 1).results, [((1 : Int), (fetch 1).results)], false⟩ : PageState α)
        [] [] rfl hst0 (by omega) (by omega) (by simp [pagesConcat]; omega)
    refine ⟨sOut, flogOut, m, ?_, ?_, hmP, fun j hj => hmin j (Nat.zero_le j) hj, hfin⟩
    · rw [hs0]
      show (if (if amount > R then R else amount) < 1 then (.error .invalid : Except PagErr _)
            else grLoop fetch (if amount > R then R else amount) (P.toNat + 1) [] 0 _ [] [])
          = _
      rw [hclamp, if_neg (by omega)]
      rw [show ([] : List α) = pagesConcat fetch 0 from rfl,
        show (0 : Int) = ((0 : Nat) : Int) from rfl, heq]
      simp
    · rw [List.length_take]
      omega

/-- A concrete consistent three-page source: 47 results split 20/20/7, as in
the claim's example. -/
def fetchC : Int → PagePayload Nat := fun n =>
  ⟨n, 3, 47,
    if n = 1 then List.range 20
    else if n = 2 then (List.range 20).map (fun x => x + 20)
    else if n = 3 then (List.range 7).map (fun x => x + 40)
    else []⟩

/-- Witness for `C5_get_results_clamp_accumulate` on the claim's scenario:
`totalResults = 47`, 20 results per full page, `amount = 50`. -/
theorem C5_witness :
    ConsistentFetch fetchC 3 47
    ∧ (47 : Int) = ((pagesConcat fetchC (3 : Int).toNat).length : Int)
    ∧ ((∀ a : Int, a < 1 → get_results fetchC (pagInit fetchC).1 a = .error .invalid)
      ∧ ∃ (sOut : PageState Nat) (flogOut : List Int) (m : Nat),
          get_results fetchC (pagInit fetchC).1 50
            = .ok ((pagesConcat fetchC (3 : Int).toNat).take (min 50 47 : Int).toNat, sOut,
                   (List.range' 1 m).map (fun k => (k : Int)), flogOut)
          ∧ ((pagesConcat fetchC (3 : Int).toNat).take (min 50 47 : Int).toNat).length
              = (min 50 47 : Int).toNat
          ∧ m ≤ (3 : Int).toNat
          ∧ (∀ j : Nat, j < m →
              ((pagesConcat fetchC j).length : Int) < min 50 47)
          ∧ ((min 50 47 : Int) ≤ ((pagesConcat fetchC m).length : Int)
              ∨ m = (3 : Int).toNat)) := by
  have hcf : ConsistentFetch fetchC 3 47 := fun n => ⟨rfl, rfl, rfl⟩
  have hR : (47 : Int) = ((pagesConcat fetchC (3 : Int).toNat).length : Int) := by
    norm_num [pagesConcat, fetchC]
  exact ⟨hcf, hR,
    C5_get_results_clamp_accumulate fetchC 3 47 50 hcf (by norm_num) hR (by norm_num)
      (by norm_num)⟩

end TMDb
